import Mathlib

/-!
Verification development for the gateway-rotator secret controller
(`internal/controller/secret_controller.go`).

The Go controller is shallowly embedded: Kubernetes secrets become the
`Secret` structure, the controller-runtime helper functions used by the
controller (`controllerutil.ContainsFinalizer`, `AddFinalizer`,
`RemoveFinalizer`, `SetControllerReference`, `RemoveOwnerReference`) are
translated from controller-runtime v0.20, and `Reconcile` /
`handleDeletion` / `initializeLocalTarget` / `updateLocalTargetData` are
translated statement by statement.  Client writes are modelled as a trace
of attempted operations together with an environment that injects the
outcome of each write in order; the key-id derivation
(`uuid.NewSHA1(uuid.Nil, crt)`) is kept abstract as a function parameter
`kid : Bytes → Bytes`.
-/

namespace Rotator

/-- Opaque byte payloads (`[]byte` in Go). -/
abbrev Bytes := List Nat

/-- One entry of `metadata.ownerReferences`, the fields compared by
controller-runtime's `referSameObject` plus the `controller` flag. -/
structure OwnerReference where
  apiVersion : String
  kind : String
  name : String
  controller : Bool
deriving DecidableEq

/-- The parts of `corev1.Secret` the controller reads or writes. -/
structure Secret where
  name : String
  nspace : String
  annots : List (String × String)
  data : List (String × Bytes)
  deletionTimestamp : Option Nat
  finalizers : List String
  ownerReferences : List OwnerReference
  secretType : String
deriving DecidableEq

/-- Zero-valued secret (`&corev1.Secret{}`). -/
def emptySecret : Secret :=
  { name := "", nspace := "", annots := [], data := [],
    deletionTimestamp := none, finalizers := [], ownerReferences := [],
    secretType := "" }

/-- Go map read `m[k]` with present/absent distinction (`v, ok := m[k]`). -/
def annotGet (s : Secret) (k : String) : Option String :=
  s.annots.lookup k

/-- Go map read `m[k]` (missing key yields the zero value `""`). -/
def annotGetD (s : Secret) (k : String) : String :=
  (annotGet s k).getD ""

/-- Go map read `m[k]` on `Data`; `none` models a `nil` slice (absent key). -/
def dataGet (s : Secret) (k : String) : Option Bytes :=
  s.data.lookup k

/-- Go map read `m[k]` on `Data`, with `nil` collapsed to the empty slice
(the program only ever takes `len`, `string` conversions and copies of the
result, for which `nil` and `[]byte{}` agree). -/
def dataGetD (s : Secret) (k : String) : Bytes :=
  (dataGet s k).getD []

/-- The configurable fields of `SecretReconciler`. -/
structure SecretReconciler where
  SourceAnnotation : String
  TargetNameAnnotation : String
  Finalizer : String
deriving DecidableEq

/-- The reconciler as wired up in `cmd/main.go`. -/
def prodReconciler : SecretReconciler :=
  { SourceAnnotation := "rotator.gw.ei.telekom.de/source-secret",
    TargetNameAnnotation := "rotator.gw.ei.telekom.de/destination-secret-name",
    Finalizer := "rotator.gw.ei.telekom.de/finalizer" }

/-- The annotation key hard-coded inside `Reconcile` and
`initializeLocalTarget` (independent of `TargetNameAnnotation`). -/
def destNameKey : String := "rotator.gw.ei.telekom.de/destination-secret-name"

/-- The validation check at the top of `Reconcile`, kept verbatim: note the
fourth disjunct re-checks `tls.crt` instead of `tls.key`, as in the source. -/
def sourceMissingTls (s : Secret) : Bool :=
  dataGet s "tls.crt" == none ||
  (dataGetD s "tls.crt").length == 0 ||
  dataGet s "tls.key" == none ||
  (dataGetD s "tls.crt").length == 0

/-- controller-runtime `controllerutil.ContainsFinalizer`. -/
def containsFinalizer (s : Secret) (f : String) : Bool :=
  s.finalizers.contains f

/-- controller-runtime `controllerutil.AddFinalizer` (appends if absent). -/
def addFinalizer (s : Secret) (f : String) : Secret :=
  if containsFinalizer s f then s
  else { s with finalizers := s.finalizers ++ [f] }

/-- controller-runtime `controllerutil.RemoveFinalizer` (removes every
occurrence). -/
def removeFinalizer (s : Secret) (f : String) : Secret :=
  { s with finalizers := s.finalizers.filter (fun x => x ≠ f) }

/-- The owner reference controller-runtime builds for a `corev1.Secret`
owner (group "", version "v1", kind "Secret"). -/
def mkControllerRef (owner : Secret) : OwnerReference :=
  { apiVersion := "v1", kind := "Secret", name := owner.name, controller := true }

/-- controller-runtime `referSameObject`: same group-version, kind and name. -/
def referSameObject (a b : OwnerReference) : Bool :=
  a.apiVersion == b.apiVersion && a.kind == b.kind && a.name == b.name

/-- controller-runtime `upsertOwnerRef`: replace the first entry referring
to the same object, else append. -/
def upsertOwnerRef (ref : OwnerReference) (obj : Secret) : Secret :=
  match obj.ownerReferences.findIdx? (fun r0 => referSameObject r0 ref) with
  | some i => { obj with ownerReferences := obj.ownerReferences.set i ref }
  | none => { obj with ownerReferences := obj.ownerReferences ++ [ref] }

/-- `metav1.GetControllerOf`: the entry with `Controller: true`, if any. -/
def getControllerOf (obj : Secret) : Option OwnerReference :=
  obj.ownerReferences.find? (fun r0 => r0.controller)

/-- controller-runtime `controllerutil.SetControllerReference`: fails if the
owner lives in another namespace or the object is already controlled by a
different owner; otherwise upserts the controller reference. -/
def setControllerReference (owner obj : Secret) : Option Secret :=
  if owner.nspace ≠ obj.nspace then none
  else
    let ref := mkControllerRef owner
    match getControllerOf obj with
    | some existing =>
        if referSameObject existing ref then some (upsertOwnerRef ref obj)
        else none
    | none => some (upsertOwnerRef ref obj)

/-- controller-runtime `indexOwnerRef`: index of the first entry referring
to the same object as `ref`. -/
def indexOwnerRef (owners : List OwnerReference) (ref : OwnerReference) : Option Nat :=
  owners.findIdx? (fun r0 => referSameObject r0 ref)

/-- controller-runtime `controllerutil.RemoveOwnerReference`: errors
(`none`) when the object has no owner references at all or none referring
to `owner`; otherwise drops the first matching entry. -/
def removeOwnerReference (owner obj : Secret) : Option Secret :=
  if obj.ownerReferences.length < 1 then none
  else
    match indexOwnerRef obj.ownerReferences (mkControllerRef owner) with
    | none => none
    | some i => some { obj with ownerReferences := obj.ownerReferences.eraseIdx i }

/-- `initializeLocalTarget` from the controller, with the derived key id
passed in as `kidv` (`[]byte(kid.String())`). -/
def initializeLocalTarget (source : Secret) (kidv : Bytes) : Secret :=
  { name := annotGetD source destNameKey,
    nspace := source.nspace,
    annots := [],
    data := [("next-tls.crt", dataGetD source "tls.crt"),
             ("next-tls.key", dataGetD source "tls.key"),
             ("next-tls.kid", kidv),
             ("tls.crt", []), ("tls.key", []), ("tls.kid", []),
             ("prev-tls.crt", []), ("prev-tls.key", []), ("prev-tls.kid", [])],
    deletionTimestamp := none,
    finalizers := [],
    ownerReferences := [],
    secretType := "kubernetes.io/tls" }

/-- `updateLocalTargetData` from the controller: shift `tls.*` to
`prev-tls.*`, `next-tls.*` to `tls.*`, and ingest the source into
`next-tls.*` with the freshly derived key id. -/
def updateLocalTargetData (target source : Secret) (kidv : Bytes) : Secret :=
  { target with data :=
      [("prev-tls.crt", dataGetD target "tls.crt"),
       ("prev-tls.key", dataGetD target "tls.key"),
       ("prev-tls.kid", dataGetD target "tls.kid"),
       ("tls.crt", dataGetD target "next-tls.crt"),
       ("tls.key", dataGetD target "next-tls.key"),
       ("tls.kid", dataGetD target "next-tls.kid"),
       ("next-tls.crt", dataGetD source "tls.crt"),
       ("next-tls.key", dataGetD source "tls.key"),
       ("next-tls.kid", kidv)] }

/-- Errors a client write can report (`AlreadyExists` is distinguishable). -/
inductive RError where
  | alreadyExists
  | other
deriving DecidableEq

/-- Injected outcome of one client write. -/
inductive WriteOutcome where
  | ok
  | failed (e : RError)
deriving DecidableEq

/-- What `Reconcile` returns (`ctrl.Result{}` carries no information here). -/
inductive ReconcileResult where
  | ok
  | err (e : RError)
deriving DecidableEq

/-- A client write attempted by the controller, with the object passed to it. -/
inductive WriteOp where
  | updateSource (s : Secret)
  | createTarget (t : Secret)
  | updateTarget (t : Secret)
deriving DecidableEq

/-- Result of a client `Get`. -/
inductive GetResult where
  | found (s : Secret)
  | notFound
  | getError
deriving DecidableEq

/-- Pop the injected outcome for the next write (an exhausted environment
means the write succeeds). -/
def popOutcome : List WriteOutcome → WriteOutcome × List WriteOutcome
  | [] => (WriteOutcome.ok, [])
  | o :: rest => (o, rest)

/-- `handleDeletion` from the controller: no-op without the finalizer; else
detach and persist the target first (owner reference removed, deletion
timestamp cleared), then remove the finalizer and persist the source. -/
def handleDeletion (r : SecretReconciler) (source target : Secret)
    (targetExists : Bool) (env : List WriteOutcome) :
    ReconcileResult × List WriteOp :=
  if containsFinalizer source r.Finalizer = false then
    (ReconcileResult.ok, [])
  else if targetExists then
    match removeOwnerReference source target with
    | none => (ReconcileResult.err RError.other, [])
    | some t1 =>
      let t2 := { t1 with deletionTimestamp := none }
      match popOutcome env with
      | (WriteOutcome.failed e, _) => (ReconcileResult.err e, [WriteOp.updateTarget t2])
      | (WriteOutcome.ok, env1) =>
        let s1 := removeFinalizer source r.Finalizer
        match popOutcome env1 with
        | (WriteOutcome.failed e, _) =>
            (ReconcileResult.err e, [WriteOp.updateTarget t2, WriteOp.updateSource s1])
        | (WriteOutcome.ok, _) =>
            (ReconcileResult.ok, [WriteOp.updateTarget t2, WriteOp.updateSource s1])
  else
    let s1 := removeFinalizer source r.Finalizer
    match popOutcome env with
    | (WriteOutcome.failed e, _) => (ReconcileResult.err e, [WriteOp.updateSource s1])
    | (WriteOutcome.ok, _) => (ReconcileResult.ok, [WriteOp.updateSource s1])

/-- The tail of `Reconcile` (lines 83–123): derive the key id, then either
initialize and create the target or rotate and update it, skipping when the
source certificate already equals `next-tls.crt`. -/
def rotateOrInit (kid : Bytes → Bytes) (source target : Secret)
    (targetExists : Bool) (env : List WriteOutcome) :
    ReconcileResult × List WriteOp :=
  let kidv := kid (dataGetD source "tls.crt")
  if targetExists = false then
    match setControllerReference source (initializeLocalTarget source kidv) with
    | none => (ReconcileResult.err RError.other, [])
    | some t1 =>
      match popOutcome env with
      | (WriteOutcome.failed e, _) => (ReconcileResult.err e, [WriteOp.createTarget t1])
      | (WriteOutcome.ok, _) => (ReconcileResult.ok, [WriteOp.createTarget t1])
  else
    if dataGetD source "tls.crt" == dataGetD target "next-tls.crt" then
      (ReconcileResult.ok, [])
    else
      match setControllerReference source (updateLocalTargetData target source kidv) with
      | none => (ReconcileResult.err RError.other, [])
      | some t1 =>
        match popOutcome env with
        | (WriteOutcome.failed e, _) => (ReconcileResult.err e, [WriteOp.updateTarget t1])
        | (WriteOutcome.ok, _) => (ReconcileResult.ok, [WriteOp.updateTarget t1])

/-- The finalizer/deletion dispatch of `Reconcile` (lines 72–81) followed by
the rotate-or-initialize tail, for a fetched source and target-get result. -/
def reconcileActive (r : SecretReconciler) (kid : Bytes → Bytes)
    (source target : Secret) (targetExists : Bool) (env : List WriteOutcome) :
    ReconcileResult × List WriteOp :=
  if source.deletionTimestamp.isNone && !(containsFinalizer source r.Finalizer) then
    let s1 := addFinalizer source r.Finalizer
    match popOutcome env with
    | (WriteOutcome.failed e, _) => (ReconcileResult.err e, [WriteOp.updateSource s1])
    | (WriteOutcome.ok, env1) =>
      let res := rotateOrInit kid s1 target targetExists env1
      (res.1, WriteOp.updateSource s1 :: res.2)
  else if !source.deletionTimestamp.isNone then
    handleDeletion r source target targetExists env
  else
    rotateOrInit kid source target targetExists env

/-- `SecretReconciler.Reconcile`: fetch the source (not-found is a
successful no-op), validate its TLS data, fetch the target by the
destination-name annotation, then dispatch. -/
def Reconcile (r : SecretReconciler) (kid : Bytes → Bytes)
    (sourceGet targetGet : GetResult) (env : List WriteOutcome) :
    ReconcileResult × List WriteOp :=
  match sourceGet with
  | GetResult.getError => (ReconcileResult.err RError.other, [])
  | GetResult.notFound => (ReconcileResult.ok, [])
  | GetResult.found source =>
    if sourceMissingTls source then (ReconcileResult.ok, [])
    else
      match targetGet with
      | GetResult.getError => (ReconcileResult.err RError.other, [])
      | GetResult.notFound => reconcileActive r kid source emptySecret false env
      | GetResult.found t => reconcileActive r kid source t true env

/-- The event-filter predicate registered in `SetupWithManager`. -/
def secretPredicate (r : SecretReconciler) (s : Secret) : Bool :=
  (annotGet s r.SourceAnnotation).isSome &&
  annotGetD s r.SourceAnnotation == "true" &&
  (annotGet s r.TargetNameAnnotation).isSome &&
  decide ((annotGetD s r.TargetNameAnnotation).length > 0)

/-- Is this write an operation on the target secret? -/
def isTargetWrite : WriteOp → Bool
  | WriteOp.updateSource _ => false
  | WriteOp.createTarget _ => true
  | WriteOp.updateTarget _ => true

/-- Writes of a trace that touch the target secret. -/
def targetWriteOps (tr : List WriteOp) : List WriteOp :=
  tr.filter isTargetWrite

/-- Number of creates/updates of the target secret in a trace. -/
def targetWrites (tr : List WriteOp) : Nat :=
  (targetWriteOps tr).length

/-- An environment that injects no write failures. -/
abbrev EnvOk (env : List WriteOutcome) : Prop :=
  ∀ o ∈ env, o = WriteOutcome.ok

/-- Owner references of `t` that refer to `s` (as compared by
`indexOwnerRef`). -/
def matchingRefs (t s : Secret) : List OwnerReference :=
  t.ownerReferences.filter (fun r0 => referSameObject r0 (mkControllerRef s))

/-- Does the existing controller reference of `t` (if any) refer to `owner`,
so that `setControllerReference` cannot fail on it? -/
def ctrlRefCompatible (owner t : Secret) : Bool :=
  match getControllerOf t with
  | some existing => referSameObject existing (mkControllerRef owner)
  | none => true

/-- A fixed stand-in for the key-id derivation, used for concrete runs. -/
def kid0 : Bytes → Bytes := fun b => 0 :: b

theorem popOutcome_of_envOk {env : List WriteOutcome} (h : EnvOk env) :
    popOutcome env = (WriteOutcome.ok, env.tail) := by
  cases env with
  | nil => rfl
  | cons o rest =>
      have ho := h o (by simp)
      simp [popOutcome, ho]

theorem envOk_tail {env : List WriteOutcome} (h : EnvOk env) : EnvOk env.tail := by
  intro o ho
  apply h
  cases env with
  | nil => exact absurd ho (by simp)
  | cons a rest => exact List.mem_cons_of_mem _ ho

theorem addFinalizer_name (s : Secret) (f : String) :
    (addFinalizer s f).name = s.name := by
  unfold addFinalizer; split <;> rfl

theorem addFinalizer_nspace (s : Secret) (f : String) :
    (addFinalizer s f).nspace = s.nspace := by
  unfold addFinalizer; split <;> rfl

theorem addFinalizer_data (s : Secret) (f : String) :
    (addFinalizer s f).data = s.data := by
  unfold addFinalizer; split <;> rfl

theorem addFinalizer_annots (s : Secret) (f : String) :
    (addFinalizer s f).annots = s.annots := by
  unfold addFinalizer; split <;> rfl

theorem addFinalizer_dataGetD (s : Secret) (f k : String) :
    dataGetD (addFinalizer s f) k = dataGetD s k := by
  simp [dataGetD, dataGet, addFinalizer_data]

theorem addFinalizer_of_contains (s : Secret) (f : String)
    (h : containsFinalizer s f = true) : addFinalizer s f = s := by
  simp [addFinalizer, h]

theorem upsertOwnerRef_data (ref : OwnerReference) (x : Secret) :
    (upsertOwnerRef ref x).data = x.data := by
  unfold upsertOwnerRef; split <;> rfl

theorem upsertOwnerRef_name (ref : OwnerReference) (x : Secret) :
    (upsertOwnerRef ref x).name = x.name := by
  unfold upsertOwnerRef; split <;> rfl

theorem upsertOwnerRef_nspace (ref : OwnerReference) (x : Secret) :
    (upsertOwnerRef ref x).nspace = x.nspace := by
  unfold upsertOwnerRef; split <;> rfl

theorem upsertOwnerRef_secretType (ref : OwnerReference) (x : Secret) :
    (upsertOwnerRef ref x).secretType = x.secretType := by
  unfold upsertOwnerRef; split <;> rfl

theorem upsertOwnerRef_of_empty (ref : OwnerReference) (x : Secret)
    (h : x.ownerReferences = []) :
    (upsertOwnerRef ref x).ownerReferences = [ref] := by
  simp [upsertOwnerRef, h]

theorem updateLocalTargetData_nspace (t s : Secret) (kidv : Bytes) :
    (updateLocalTargetData t s kidv).nspace = t.nspace := rfl

theorem updateLocalTargetData_owners (t s : Secret) (kidv : Bytes) :
    (updateLocalTargetData t s kidv).ownerReferences = t.ownerReferences := rfl

theorem initializeLocalTarget_nspace (s : Secret) (kidv : Bytes) :
    (initializeLocalTarget s kidv).nspace = s.nspace := rfl

theorem initializeLocalTarget_owners (s : Secret) (kidv : Bytes) :
    (initializeLocalTarget s kidv).ownerReferences = [] := rfl

theorem targetWriteOps_nil : targetWriteOps [] = [] := rfl

theorem targetWriteOps_updateSource (s : Secret) (tr : List WriteOp) :
    targetWriteOps (WriteOp.updateSource s :: tr) = targetWriteOps tr := by
  simp [targetWriteOps, List.filter, isTargetWrite]

/-- `setControllerReference` on the freshly initialized target always
succeeds and installs exactly the controller reference to the source. -/
theorem setCtrlRef_init (s : Secret) (kidv : Bytes) :
    setControllerReference s (initializeLocalTarget s kidv) =
      some (upsertOwnerRef (mkControllerRef s) (initializeLocalTarget s kidv)) := by
  unfold setControllerReference
  rw [if_neg (by rw [initializeLocalTarget_nspace]; exact fun h => h rfl)]
  have hnone : getControllerOf (initializeLocalTarget s kidv) = none := by
    simp [getControllerOf, initializeLocalTarget]
  rw [hnone]

/-- `setControllerReference` on the rotated target succeeds whenever the
target sits in the source's namespace and is not controlled by a different
owner. -/
theorem setCtrlRef_rotate (s t : Secret) (kidv : Bytes)
    (hns : t.nspace = s.nspace) (hctrl : ctrlRefCompatible s t = true) :
    setControllerReference s (updateLocalTargetData t s kidv) =
      some (upsertOwnerRef (mkControllerRef s) (updateLocalTargetData t s kidv)) := by
  unfold setControllerReference
  rw [if_neg (by rw [updateLocalTargetData_nspace, hns]; exact fun h => h rfl)]
  have howners : getControllerOf (updateLocalTargetData t s kidv) = getControllerOf t := by
    simp [getControllerOf, updateLocalTargetData_owners]
  rw [howners]
  unfold ctrlRefCompatible at hctrl
  cases hg : getControllerOf t with
  | none => rfl
  | some existing =>
      rw [hg] at hctrl
      simp only [] at hctrl
      simp [hctrl]

/-- If exactly one element of `l` satisfies `p`, then `findIdx?` finds an
index and erasing it leaves no element satisfying `p`. -/
theorem filter_singleton_eraseIdx {α : Type} (p : α → Bool) :
    ∀ l : List α, (l.filter p).length = 1 →
      ∃ i, l.findIdx? p = some i ∧ (l.eraseIdx i).filter p = [] := by
  intro l
  induction l with
  | nil => intro h; simp at h
  | cons a as ih =>
    intro h
    by_cases hp : p a
    · refine ⟨0, ?_, ?_⟩
      · simp [List.findIdx?_cons, hp]
      · have hz : (as.filter p).length = 0 := by
          have := h
          rw [List.filter_cons, if_pos hp] at this
          simpa using this
        rw [List.eraseIdx_cons_zero]
        exact List.length_eq_zero.mp hz
    · have h' : (as.filter p).length = 1 := by
        rw [List.filter_cons, if_neg (by simpa using hp)] at h
        exact h
      obtain ⟨i, hfi, hfe⟩ := ih h'
      refine ⟨i + 1, ?_, ?_⟩
      · rw [List.findIdx?_cons, if_neg (by simpa using hp), List.findIdx?_succ, hfi]
        rfl
      · rw [List.eraseIdx_cons_succ, List.filter_cons, if_neg (by simpa using hp)]
        exact hfe

theorem targetWrites_updateSource (s : Secret) (tr : List WriteOp) :
    targetWrites (WriteOp.updateSource s :: tr) = targetWrites tr := by
  simp [targetWrites, targetWriteOps_updateSource]

theorem handleDeletion_targetWrites_le (r : SecretReconciler) (s t : Secret)
    (te : Bool) (env : List WriteOutcome) :
    targetWrites (handleDeletion r s t te env).2 ≤ 1 := by
  unfold handleDeletion
  repeat' split
  all_goals (try simp [targetWrites, targetWriteOps, isTargetWrite, List.filter])

theorem rotateOrInit_targetWrites_le (kid : Bytes → Bytes) (s t : Secret)
    (te : Bool) (env : List WriteOutcome) :
    targetWrites (rotateOrInit kid s t te env).2 ≤ 1 := by
  unfold rotateOrInit
  repeat' split
  all_goals (try simp [targetWrites, targetWriteOps, isTargetWrite, List.filter])
  all_goals (repeat' split)
  all_goals (try simp [targetWrites, targetWriteOps, isTargetWrite, List.filter])

theorem reconcileActive_targetWrites_le (r : SecretReconciler)
    (kid : Bytes → Bytes) (s t : Secret) (te : Bool) (env : List WriteOutcome) :
    targetWrites (reconcileActive r kid s t te env).2 ≤ 1 := by
  unfold reconcileActive
  split
  · split
    · simp [targetWrites, targetWriteOps, isTargetWrite, List.filter]
    · rw [targetWrites_updateSource]
      exact rotateOrInit_targetWrites_le ..
  · split
    · exact handleDeletion_targetWrites_le ..
    · exact rotateOrInit_targetWrites_le ..

/-- On a live (non-deleting) source with an all-success environment, a pass
reduces to the rotate-or-initialize tail applied to the finalizer-carrying
source: same result and the same target writes. -/
theorem reconcileActive_active (r : SecretReconciler) (kid : Bytes → Bytes)
    (s t : Secret) (te : Bool) (env : List WriteOutcome)
    (hdel : s.deletionTimestamp = none) (henv : EnvOk env) :
    ∃ env1, EnvOk env1 ∧
      (reconcileActive r kid s t te env).1 =
        (rotateOrInit kid (addFinalizer s r.Finalizer) t te env1).1 ∧
      targetWriteOps (reconcileActive r kid s t te env).2 =
        targetWriteOps (rotateOrInit kid (addFinalizer s r.Finalizer) t te env1).2 := by
  by_cases hf : containsFinalizer s r.Finalizer
  · refine ⟨env, henv, ?_, ?_⟩ <;>
      rw [addFinalizer_of_contains s r.Finalizer hf] <;>
      unfold reconcileActive <;>
      simp [hdel, hf]
  · refine ⟨env.tail, envOk_tail henv, ?_, ?_⟩ <;>
      unfold reconcileActive <;>
      simp [hdel, hf, popOutcome_of_envOk henv, targetWriteOps_updateSource]

theorem addFinalizer_annotGetD (s : Secret) (f k : String) :
    annotGetD (addFinalizer s f) k = annotGetD s k := by
  simp [annotGetD, annotGet, addFinalizer_annots]

theorem mkControllerRef_addFinalizer (s : Secret) (f : String) :
    mkControllerRef (addFinalizer s f) = mkControllerRef s := by
  simp [mkControllerRef, addFinalizer_name]

theorem ctrlRefCompatible_addFinalizer (s t : Secret) (f : String) :
    ctrlRefCompatible (addFinalizer s f) t = ctrlRefCompatible s t := by
  unfold ctrlRefCompatible
  rw [mkControllerRef_addFinalizer]

theorem updateLocalTargetData_addFinalizer (t s : Secret) (f : String) (kidv : Bytes) :
    updateLocalTargetData t (addFinalizer s f) kidv = updateLocalTargetData t s kidv := by
  unfold updateLocalTargetData
  rw [addFinalizer_dataGetD, addFinalizer_dataGetD]

theorem initializeLocalTarget_addFinalizer (s : Secret) (f : String) (kidv : Bytes) :
    initializeLocalTarget (addFinalizer s f) kidv = initializeLocalTarget s kidv := by
  unfold initializeLocalTarget
  rw [addFinalizer_dataGetD, addFinalizer_dataGetD, addFinalizer_nspace,
    addFinalizer_annotGetD]

/-- The initialize path of the rotate-or-initialize tail under an
all-success environment. -/
theorem rotateOrInit_init (kid : Bytes → Bytes) (s t : Secret)
    (env : List WriteOutcome) (henv : EnvOk env) :
    rotateOrInit kid s t false env =
      (ReconcileResult.ok,
       [WriteOp.createTarget (upsertOwnerRef (mkControllerRef s)
          (initializeLocalTarget s (kid (dataGetD s "tls.crt"))))]) := by
  unfold rotateOrInit
  simp [setCtrlRef_init, popOutcome_of_envOk henv]

/-- The skip path of the rotate-or-initialize tail: an unchanged source
certificate issues no write at all. -/
theorem rotateOrInit_skip (kid : Bytes → Bytes) (s t : Secret)
    (env : List WriteOutcome)
    (heq : dataGetD s "tls.crt" = dataGetD t "next-tls.crt") :
    rotateOrInit kid s t true env = (ReconcileResult.ok, []) := by
  unfold rotateOrInit
  simp [heq]

/-- The rotate path of the rotate-or-initialize tail under an all-success
environment. -/
theorem rotateOrInit_rotate (kid : Bytes → Bytes) (s t : Secret)
    (env : List WriteOutcome)
    (hns : t.nspace = s.nspace) (hctrl : ctrlRefCompatible s t = true)
    (hne : ¬ dataGetD s "tls.crt" = dataGetD t "next-tls.crt")
    (henv : EnvOk env) :
    rotateOrInit kid s t true env =
      (ReconcileResult.ok,
       [WriteOp.updateTarget (upsertOwnerRef (mkControllerRef s)
          (updateLocalTargetData t s (kid (dataGetD s "tls.crt"))))]) := by
  unfold rotateOrInit
  have hbeq : (dataGetD s "tls.crt" == dataGetD t "next-tls.crt") = false := by
    simpa using hne
  simp [hbeq, setCtrlRef_rotate s t _ hns hctrl, popOutcome_of_envOk henv]

/-- A secret without the is-source marker annotation but with valid TLS data
and a destination-secret-name annotation. -/
def c1source : Secret :=
  { name := "plain", nspace := "ns1",
    annots := [("rotator.gw.ei.telekom.de/destination-secret-name", "t1")],
    data := [("tls.crt", [1]), ("tls.key", [2])],
    deletionTimestamp := none,
    finalizers := ["rotator.gw.ei.telekom.de/finalizer"],
    ownerReferences := [],
    secretType := "kubernetes.io/tls" }

/-- A marked source whose `tls.key` entry is present but empty while
`tls.crt` is non-empty. -/
def c2source : Secret :=
  { name := "src2", nspace := "ns2",
    annots := [("rotator.gw.ei.telekom.de/source-secret", "true"),
               ("rotator.gw.ei.telekom.de/destination-secret-name", "t2")],
    data := [("tls.crt", [3]), ("tls.key", [])],
    deletionTimestamp := none,
    finalizers := [],
    ownerReferences := [],
    secretType := "kubernetes.io/tls" }

/-- A valid, finalizer-carrying source whose target does not exist yet. -/
def c3source : Secret :=
  { name := "src3", nspace := "ns3",
    annots := [("rotator.gw.ei.telekom.de/source-secret", "true"),
               ("rotator.gw.ei.telekom.de/destination-secret-name", "t3")],
    data := [("tls.crt", [5]), ("tls.key", [6])],
    deletionTimestamp := none,
    finalizers := ["rotator.gw.ei.telekom.de/finalizer"],
    ownerReferences := [],
    secretType := "kubernetes.io/tls" }

/-- A valid source under deletion that still carries the finalizer. -/
def c4source : Secret :=
  { name := "src4", nspace := "ns4",
    annots := [("rotator.gw.ei.telekom.de/source-secret", "true"),
               ("rotator.gw.ei.telekom.de/destination-secret-name", "t4")],
    data := [("tls.crt", [7]), ("tls.key", [8])],
    deletionTimestamp := some 5,
    finalizers := ["rotator.gw.ei.telekom.de/finalizer"],
    ownerReferences := [],
    secretType := "kubernetes.io/tls" }

/-- The target left behind by a pass that already removed the
owner-reference but failed before removing the source's finalizer. -/
def c4target : Secret :=
  { name := "t4", nspace := "ns4",
    annots := [],
    data := [("next-tls.crt", [9]), ("next-tls.key", [10]), ("next-tls.kid", [11]),
             ("tls.crt", []), ("tls.key", []), ("tls.kid", []),
             ("prev-tls.crt", []), ("prev-tls.key", []), ("prev-tls.kid", [])],
    deletionTimestamp := none,
    finalizers := [],
    ownerReferences := [],
    secretType := "kubernetes.io/tls" }

/-- A valid source under deletion carrying the finalizer (for the deletion
decoupling claim). -/
def c8source : Secret :=
  { name := "src8", nspace := "ns8",
    annots := [("rotator.gw.ei.telekom.de/source-secret", "true"),
               ("rotator.gw.ei.telekom.de/destination-secret-name", "t8")],
    data := [("tls.crt", [12]), ("tls.key", [13])],
    deletionTimestamp := some 9,
    finalizers := ["rotator.gw.ei.telekom.de/finalizer"],
    ownerReferences := [],
    secretType := "kubernetes.io/tls" }

/-- An existing target without any owner-reference to `c8source`, with a
propagated deletion timestamp still set. -/
def c8target : Secret :=
  { name := "t8", nspace := "ns8",
    annots := [],
    data := [("next-tls.crt", [14]), ("next-tls.key", [15]), ("next-tls.kid", [16]),
             ("tls.crt", []), ("tls.key", []), ("tls.kid", []),
             ("prev-tls.crt", []), ("prev-tls.key", []), ("prev-tls.kid", [])],
    deletionTimestamp := some 3,
    finalizers := [],
    ownerReferences := [],
    secretType := "kubernetes.io/tls" }

/-- A valid rotation witness source: finalizer present, not deleting. -/
def w5source : Secret :=
  { name := "src5", nspace := "ns5",
    annots := [("rotator.gw.ei.telekom.de/source-secret", "true"),
               ("rotator.gw.ei.telekom.de/destination-secret-name", "t5")],
    data := [("tls.crt", [20]), ("tls.key", [21])],
    deletionTimestamp := none,
    finalizers := ["rotator.gw.ei.telekom.de/finalizer"],
    ownerReferences := [],
    secretType := "kubernetes.io/tls" }

/-- A fully populated target for the rotation witness, controlled by
`w5source`, with `next-tls.crt` different from the source certificate. -/
def w5target : Secret :=
  { name := "t5", nspace := "ns5",
    annots := [],
    data := [("prev-tls.crt", [31]), ("prev-tls.key", [32]), ("prev-tls.kid", [33]),
             ("tls.crt", [41]), ("tls.key", [42]), ("tls.kid", [43]),
             ("next-tls.crt", [51]), ("next-tls.key", [52]), ("next-tls.kid", [53])],
    deletionTimestamp := none,
    finalizers := [],
    ownerReferences := [{ apiVersion := "v1", kind := "Secret", name := "src5",
                          controller := true }],
    secretType := "kubernetes.io/tls" }

/-- A source whose certificate equals the staged `next-tls.crt` of its
target (witness for the skip path). -/
def w6source : Secret :=
  { name := "src6", nspace := "ns6",
    annots := [("rotator.gw.ei.telekom.de/source-secret", "true"),
               ("rotator.gw.ei.telekom.de/destination-secret-name", "t6")],
    data := [("tls.crt", [60]), ("tls.key", [61])],
    deletionTimestamp := none,
    finalizers := [],
    ownerReferences := [],
    secretType := "kubernetes.io/tls" }

/-- A target whose `next-tls.crt` equals `w6source`'s certificate. -/
def w6target : Secret :=
  { name := "t6", nspace := "ns6",
    annots := [],
    data := [("prev-tls.crt", []), ("prev-tls.key", []), ("prev-tls.kid", []),
             ("tls.crt", []), ("tls.key", []), ("tls.kid", []),
             ("next-tls.crt", [60]), ("next-tls.key", [61]), ("next-tls.kid", [62])],
    deletionTimestamp := none,
    finalizers := [],
    ownerReferences := [{ apiVersion := "v1", kind := "Secret", name := "src6",
                          controller := true }],
    secretType := "kubernetes.io/tls" }

/-- A valid source for the initialization witness (no target exists). -/
def w7source : Secret :=
  { name := "src7", nspace := "ns7",
    annots := [("rotator.gw.ei.telekom.de/source-secret", "true"),
               ("rotator.gw.ei.telekom.de/destination-secret-name", "t7")],
    data := [("tls.crt", [70]), ("tls.key", [71])],
    deletionTimestamp := none,
    finalizers := [],
    ownerReferences := [],
    secretType := "kubernetes.io/tls" }

/-- A deleting, finalizer-carrying source for the deletion-decoupling
witness. -/
def w8source : Secret :=
  { name := "src8w", nspace := "ns8w",
    annots := [("rotator.gw.ei.telekom.de/source-secret", "true"),
               ("rotator.gw.ei.telekom.de/destination-secret-name", "t8w")],
    data := [("tls.crt", [80]), ("tls.key", [81])],
    deletionTimestamp := some 2,
    finalizers := ["rotator.gw.ei.telekom.de/finalizer"],
    ownerReferences := [],
    secretType := "kubernetes.io/tls" }

/-- The target of `w8source`, carrying exactly one owner-reference to it and
a propagated deletion timestamp. -/
def w8target : Secret :=
  { name := "t8w", nspace := "ns8w",
    annots := [],
    data := [("next-tls.crt", [82]), ("next-tls.key", [83]), ("next-tls.kid", [84]),
             ("tls.crt", []), ("tls.key", []), ("tls.kid", []),
             ("prev-tls.crt", []), ("prev-tls.key", []), ("prev-tls.kid", [])],
    deletionTimestamp := some 7,
    finalizers := [],
    ownerReferences := [{ apiVersion := "v1", kind := "Secret", name := "src8w",
                          controller := true }],
    secretType := "kubernetes.io/tls" }

/-- A source whose certificate equals the target's staged certificate while
its key differs from the staged key (key-only change). -/
def w10source : Secret :=
  { name := "src10", nspace := "ns10",
    annots := [("rotator.gw.ei.telekom.de/source-secret", "true"),
               ("rotator.gw.ei.telekom.de/destination-secret-name", "t10")],
    data := [("tls.crt", [100]), ("tls.key", [101])],
    deletionTimestamp := none,
    finalizers := ["rotator.gw.ei.telekom.de/finalizer"],
    ownerReferences := [],
    secretType := "kubernetes.io/tls" }

/-- A target staging the same certificate as `w10source` but a different
key. -/
def w10target : Secret :=
  { name := "t10", nspace := "ns10",
    annots := [],
    data := [("prev-tls.crt", []), ("prev-tls.key", []), ("prev-tls.kid", []),
             ("tls.crt", []), ("tls.key", []), ("tls.kid", []),
             ("next-tls.crt", [100]), ("next-tls.key", [102]), ("next-tls.kid", [103])],
    deletionTimestamp := none,
    finalizers := [],
    ownerReferences := [{ apiVersion := "v1", kind := "Secret", name := "src10",
                          controller := true }],
    secretType := "kubernetes.io/tls" }

/-- C1 counterexample: invoked directly on a fetched object that lacks the
is-source marker but carries non-empty `tls.crt`/`tls.key` and a
destination-secret-name annotation, `Reconcile` returns success AND creates
the target — it performs no marker re-check, contradicting the claim that
no target secret is created on such a pass. -/
theorem C1_counterexample :
    annotGet c1source "rotator.gw.ei.telekom.de/source-secret" = none ∧
    (Reconcile prodReconciler kid0 (GetResult.found c1source)
        GetResult.notFound []).1 = ReconcileResult.ok ∧
    targetWrites (Reconcile prodReconciler kid0 (GetResult.found c1source)
        GetResult.notFound []).2 = 1 :=
  ⟨rfl, rfl, rfl⟩

/-- C1 (amended): the marker check lives only in the watch layer — the
`SetupWithManager` predicate rejects every secret whose is-source marker is
absent or not `"true"`, while `Reconcile` itself performs no re-check and,
invoked directly on such an object with valid data and a destination-name
annotation, does create the target. -/
theorem C1_amended_predicate_filters :
    (∀ s : Secret, annotGet s prodReconciler.SourceAnnotation ≠ some "true" →
        secretPredicate prodReconciler s = false) ∧
    targetWrites (Reconcile prodReconciler kid0 (GetResult.found c1source)
        GetResult.notFound []).2 = 1 := by
  refine ⟨?_, rfl⟩
  intro s h
  unfold secretPredicate
  cases hv : annotGet s prodReconciler.SourceAnnotation with
  | none => simp [annotGetD, hv]
  | some v =>
      have hvne : v ≠ "true" := fun hh => h (by rw [hv, hh])
      simp [annotGetD, hv, hvne]

/-- Witness for the C1 amended theorem at the concrete marker-less secret. -/
theorem C1_amended_predicate_filters_witness :
    secretPredicate prodReconciler c1source = false :=
  C1_amended_predicate_filters.1 c1source (by decide)

/-- C2 code bug: a source whose `tls.key` entry is present but empty (with a
non-empty `tls.crt`) passes the validation check — its fourth disjunct
re-tests `tls.crt` instead of `tls.key` — so the pass adds the finalizer to
the source and writes the target instead of being a logged no-op. -/
theorem C2_code_bug_eval :
    dataGet c2source "tls.key" = some [] ∧
    sourceMissingTls c2source = false ∧
    (Reconcile prodReconciler kid0 (GetResult.found c2source)
        GetResult.notFound []).2 =
      [WriteOp.updateSource (addFinalizer c2source prodReconciler.Finalizer),
       WriteOp.createTarget (upsertOwnerRef (mkControllerRef c2source)
         (initializeLocalTarget c2source (kid0 [3])))] :=
  ⟨rfl, rfl, rfl⟩

/-- C3 counterexample: when the create of the missing target fails with
already-exists, `Reconcile` returns that error instead of the success the
claim requires (the code has no benign-race special case). -/
theorem C3_counterexample :
    (Reconcile prodReconciler kid0 (GetResult.found c3source) GetResult.notFound
        [WriteOutcome.failed RError.alreadyExists]).1 =
      ReconcileResult.err RError.alreadyExists := rfl

/-- C3 (amended): every create failure on the initialization path —
already-exists included — is returned as a retryable error. -/
theorem C3_amended_create_error (r : SecretReconciler) (kid : Bytes → Bytes)
    (s : Secret) (e : RError)
    (hval : sourceMissingTls s = false)
    (hdel : s.deletionTimestamp = none)
    (hfin : containsFinalizer s r.Finalizer = true) :
    (Reconcile r kid (GetResult.found s) GetResult.notFound
        [WriteOutcome.failed e]).1 = ReconcileResult.err e := by
  unfold Reconcile
  simp only [hval, Bool.false_eq_true, if_false]
  unfold reconcileActive
  simp only [hdel, Option.isNone_none, hfin, Bool.not_true, Bool.and_false,
    Bool.false_eq_true, if_false, Bool.not_false, if_true]
  unfold rotateOrInit
  simp [setCtrlRef_init, popOutcome]

/-- Witness for the C3 amended theorem at a concrete source and error. -/
theorem C3_amended_create_error_witness :
    (Reconcile prodReconciler kid0 (GetResult.found c3source) GetResult.notFound
        [WriteOutcome.failed RError.other]).1 = ReconcileResult.err RError.other :=
  C3_amended_create_error prodReconciler kid0 c3source RError.other
    (by decide) rfl (by decide)

/-- C4 code bug: on re-invocation of the deletion path after a prior pass
already persisted the owner-reference removal (but failed before removing
the finalizer), `RemoveOwnerReference` errors on the now-absent reference,
so the pass fails and the finalizer is never removed — the state is not
resumable, contradicting the claim. -/
theorem C4_code_bug_eval :
    containsFinalizer c4source prodReconciler.Finalizer = true ∧
    c4source.deletionTimestamp = some 5 ∧
    matchingRefs c4target c4source = [] ∧
    Reconcile prodReconciler kid0 (GetResult.found c4source)
        (GetResult.found c4target) [] = (ReconcileResult.err RError.other, []) :=
  ⟨rfl, rfl, rfl, rfl⟩

/-- C5: three-generation shift law — on an existing target and a valid,
non-deleting source whose certificate differs from the staged
`next-tls.crt`, the pass issues exactly one target update whose data is
exactly the shifted three generations: `prev-tls.*` take the old `tls.*`,
`tls.*` take the old `next-tls.*`, and `next-tls.*` take the source's
certificate and key with a freshly derived key id. -/
theorem C5_rotation_shift (r : SecretReconciler) (kid : Bytes → Bytes)
    (s t : Secret) (env : List WriteOutcome)
    (hval : sourceMissingTls s = false)
    (hdel : s.deletionTimestamp = none)
    (hns : t.nspace = s.nspace)
    (hctrl : ctrlRefCompatible s t = true)
    (hne : ¬ dataGetD s "tls.crt" = dataGetD t "next-tls.crt")
    (henv : EnvOk env) :
    (Reconcile r kid (GetResult.found s) (GetResult.found t) env).1 =
      ReconcileResult.ok ∧
    ∃ t1, targetWriteOps (Reconcile r kid (GetResult.found s)
        (GetResult.found t) env).2 = [WriteOp.updateTarget t1] ∧
      t1.data = [("prev-tls.crt", dataGetD t "tls.crt"),
                 ("prev-tls.key", dataGetD t "tls.key"),
                 ("prev-tls.kid", dataGetD t "tls.kid"),
                 ("tls.crt", dataGetD t "next-tls.crt"),
                 ("tls.key", dataGetD t "next-tls.key"),
                 ("tls.kid", dataGetD t "next-tls.kid"),
                 ("next-tls.crt", dataGetD s "tls.crt"),
                 ("next-tls.key", dataGetD s "tls.key"),
                 ("next-tls.kid", kid (dataGetD s "tls.crt"))] := by
  have hred : Reconcile r kid (GetResult.found s) (GetResult.found t) env =
      reconcileActive r kid s t true env := by
    unfold Reconcile; simp [hval]
  obtain ⟨env1, henv1, h1, h2⟩ :=
    reconcileActive_active r kid s t true env hdel henv
  have hns1 : t.nspace = (addFinalizer s r.Finalizer).nspace := by
    rw [addFinalizer_nspace]; exact hns
  have hctrl1 : ctrlRefCompatible (addFinalizer s r.Finalizer) t = true := by
    rw [ctrlRefCompatible_addFinalizer]; exact hctrl
  have hne1 : ¬ dataGetD (addFinalizer s r.Finalizer) "tls.crt" =
      dataGetD t "next-tls.crt" := by
    rw [addFinalizer_dataGetD]; exact hne
  have hro := rotateOrInit_rotate kid (addFinalizer s r.Finalizer) t env1
    hns1 hctrl1 hne1 henv1
  rw [hred]
  refine ⟨by rw [h1, hro], ?_⟩
  refine ⟨upsertOwnerRef (mkControllerRef (addFinalizer s r.Finalizer))
    (updateLocalTargetData t (addFinalizer s r.Finalizer)
      (kid (dataGetD (addFinalizer s r.Finalizer) "tls.crt"))), ?_, ?_⟩
  · rw [h2, hro]
    simp [targetWriteOps, isTargetWrite]
  · rw [upsertOwnerRef_data, updateLocalTargetData_addFinalizer,
      addFinalizer_dataGetD]
    rfl

/-- Witness for the C5 shift law at a concrete source/target pair. -/
theorem C5_rotation_shift_witness :
    (Reconcile prodReconciler kid0 (GetResult.found w5source)
        (GetResult.found w5target) []).1 = ReconcileResult.ok ∧
    ∃ t1, targetWriteOps (Reconcile prodReconciler kid0 (GetResult.found w5source)
        (GetResult.found w5target) []).2 = [WriteOp.updateTarget t1] ∧
      t1.data = [("prev-tls.crt", dataGetD w5target "tls.crt"),
                 ("prev-tls.key", dataGetD w5target "tls.key"),
                 ("prev-tls.kid", dataGetD w5target "tls.kid"),
                 ("tls.crt", dataGetD w5target "next-tls.crt"),
                 ("tls.key", dataGetD w5target "next-tls.key"),
                 ("tls.kid", dataGetD w5target "next-tls.kid"),
                 ("next-tls.crt", dataGetD w5source "tls.crt"),
                 ("next-tls.key", dataGetD w5source "tls.key"),
                 ("next-tls.kid", kid0 (dataGetD w5source "tls.crt"))] :=
  C5_rotation_shift prodReconciler kid0 w5source w5target []
    (by decide) rfl rfl (by decide) (by decide) (by decide)

/-- C6: no rotation on repeat — when the source certificate equals the
target's staged `next-tls.crt`, the pass succeeds and issues no write to the
target, so the target's post-state equals its pre-state. -/
theorem C6_skip_no_write (r : SecretReconciler) (kid : Bytes → Bytes)
    (s t : Secret) (env : List WriteOutcome)
    (hval : sourceMissingTls s = false)
    (hdel : s.deletionTimestamp = none)
    (heq : dataGetD s "tls.crt" = dataGetD t "next-tls.crt")
    (henv : EnvOk env) :
    (Reconcile r kid (GetResult.found s) (GetResult.found t) env).1 =
      ReconcileResult.ok ∧
    targetWriteOps (Reconcile r kid (GetResult.found s)
        (GetResult.found t) env).2 = [] := by
  have hred : Reconcile r kid (GetResult.found s) (GetResult.found t) env =
      reconcileActive r kid s t true env := by
    unfold Reconcile; simp [hval]
  obtain ⟨env1, henv1, h1, h2⟩ :=
    reconcileActive_active r kid s t true env hdel henv
  have heq1 : dataGetD (addFinalizer s r.Finalizer) "tls.crt" =
      dataGetD t "next-tls.crt" := by
    rw [addFinalizer_dataGetD]; exact heq
  have hro := rotateOrInit_skip kid (addFinalizer s r.Finalizer) t env1 heq1
  rw [hred]
  exact ⟨by rw [h1, hro], by rw [h2, hro]; rfl⟩

/-- Witness for the C6 skip behavior at a concrete source/target pair. -/
theorem C6_skip_no_write_witness :
    (Reconcile prodReconciler kid0 (GetResult.found w6source)
        (GetResult.found w6target) []).1 = ReconcileResult.ok ∧
    targetWriteOps (Reconcile prodReconciler kid0 (GetResult.found w6source)
        (GetResult.found w6target) []).2 = [] :=
  C6_skip_no_write prodReconciler kid0 w6source w6target []
    (by decide) rfl (by decide) (by decide)

/-- C7: initialization shape — on a valid, non-deleting source with no
existing target, the pass succeeds with exactly one create whose object has
`next-tls.*` holding the source material and the derived key id, the six
other generation fields present and empty, the TLS secret type, an
owner-reference to the source, and the annotated destination name in the
source's namespace. -/
theorem C7_initialization_shape (r : SecretReconciler) (kid : Bytes → Bytes)
    (s : Secret) (env : List WriteOutcome)
    (hval : sourceMissingTls s = false)
    (hdel : s.deletionTimestamp = none)
    (henv : EnvOk env) :
    (Reconcile r kid (GetResult.found s) GetResult.notFound env).1 =
      ReconcileResult.ok ∧
    ∃ t1, targetWriteOps (Reconcile r kid (GetResult.found s)
        GetResult.notFound env).2 = [WriteOp.createTarget t1] ∧
      t1.data = [("next-tls.crt", dataGetD s "tls.crt"),
                 ("next-tls.key", dataGetD s "tls.key"),
                 ("next-tls.kid", kid (dataGetD s "tls.crt")),
                 ("tls.crt", []), ("tls.key", []), ("tls.kid", []),
                 ("prev-tls.crt", []), ("prev-tls.key", []), ("prev-tls.kid", [])] ∧
      t1.secretType = "kubernetes.io/tls" ∧
      t1.ownerReferences = [mkControllerRef s] ∧
      t1.name = annotGetD s destNameKey ∧
      t1.nspace = s.nspace := by
  have hred : Reconcile r kid (GetResult.found s) GetResult.notFound env =
      reconcileActive r kid s emptySecret false env := by
    unfold Reconcile; simp [hval]
  obtain ⟨env1, henv1, h1, h2⟩ :=
    reconcileActive_active r kid s emptySecret false env hdel henv
  have hro := rotateOrInit_init kid (addFinalizer s r.Finalizer) emptySecret env1 henv1
  rw [hred]
  refine ⟨by rw [h1, hro], ?_⟩
  refine ⟨upsertOwnerRef (mkControllerRef (addFinalizer s r.Finalizer))
    (initializeLocalTarget (addFinalizer s r.Finalizer)
      (kid (dataGetD (addFinalizer s r.Finalizer) "tls.crt"))), ?_, ?_, ?_, ?_, ?_, ?_⟩
  · rw [h2, hro]
    simp [targetWriteOps, isTargetWrite]
  · rw [upsertOwnerRef_data, initializeLocalTarget_addFinalizer, addFinalizer_dataGetD]
    rfl
  · rw [upsertOwnerRef_secretType, initializeLocalTarget_addFinalizer]
    rfl
  · rw [upsertOwnerRef_of_empty _ _ (initializeLocalTarget_owners ..),
      mkControllerRef_addFinalizer]
  · rw [upsertOwnerRef_name, initializeLocalTarget_addFinalizer]
    rfl
  · rw [upsertOwnerRef_nspace, initializeLocalTarget_addFinalizer]
    rfl

/-- Witness for the C7 initialization shape at a concrete source. -/
theorem C7_initialization_shape_witness :
    (Reconcile prodReconciler kid0 (GetResult.found w7source)
        GetResult.notFound []).1 = ReconcileResult.ok ∧
    ∃ t1, targetWriteOps (Reconcile prodReconciler kid0 (GetResult.found w7source)
        GetResult.notFound []).2 = [WriteOp.createTarget t1] ∧
      t1.data = [("next-tls.crt", dataGetD w7source "tls.crt"),
                 ("next-tls.key", dataGetD w7source "tls.key"),
                 ("next-tls.kid", kid0 (dataGetD w7source "tls.crt")),
                 ("tls.crt", []), ("tls.key", []), ("tls.kid", []),
                 ("prev-tls.crt", []), ("prev-tls.key", []), ("prev-tls.kid", [])] ∧
      t1.secretType = "kubernetes.io/tls" ∧
      t1.ownerReferences = [mkControllerRef w7source] ∧
      t1.name = annotGetD w7source destNameKey ∧
      t1.nspace = w7source.nspace :=
  C7_initialization_shape prodReconciler kid0 w7source []
    (by decide) rfl (by decide)

/-- C9: at most one write operation (create or update) is performed on the
target secret per reconciliation pass, across all branches. -/
theorem C9_at_most_one_target_write (r : SecretReconciler) (kid : Bytes → Bytes)
    (sourceGet targetGet : GetResult) (env : List WriteOutcome) :
    targetWrites (Reconcile r kid sourceGet targetGet env).2 ≤ 1 := by
  unfold Reconcile
  cases sourceGet with
  | getError => simp [targetWrites, targetWriteOps]
  | notFound => simp [targetWrites, targetWriteOps]
  | found s =>
      by_cases hval : sourceMissingTls s
      · simp [hval, targetWrites, targetWriteOps]
      · cases targetGet with
        | getError => simp [hval, targetWrites, targetWriteOps]
        | notFound =>
            simp only [hval, Bool.false_eq_true, if_false]
            exact reconcileActive_targetWrites_le ..
        | found t =>
            simp only [hval, Bool.false_eq_true, if_false]
            exact reconcileActive_targetWrites_le ..

/-- C10: the rotate-or-skip decision depends only on certificate bytes — if
the source certificate equals the staged `next-tls.crt` while the key
differs from `next-tls.key`, the pass issues no write to the target under
any write environment. -/
theorem C10_key_only_change_ignored (r : SecretReconciler) (kid : Bytes → Bytes)
    (s t : Secret) (env : List WriteOutcome)
    (hval : sourceMissingTls s = false)
    (hdel : s.deletionTimestamp = none)
    (heq : dataGetD s "tls.crt" = dataGetD t "next-tls.crt")
    (_hkey : ¬ dataGetD s "tls.key" = dataGetD t "next-tls.key") :
    targetWriteOps (Reconcile r kid (GetResult.found s)
        (GetResult.found t) env).2 = [] := by
  have hred : Reconcile r kid (GetResult.found s) (GetResult.found t) env =
      reconcileActive r kid s t true env := by
    unfold Reconcile; simp [hval]
  rw [hred]
  unfold reconcileActive
  by_cases hf : containsFinalizer s r.Finalizer
  · simp only [hdel, Option.isNone_none, hf, Bool.not_true, Bool.and_false,
      Bool.false_eq_true, if_false, Bool.not_false, if_true]
    rw [rotateOrInit_skip kid s t env heq]
    rfl
  · simp only [hdel, Option.isNone_none, hf, Bool.not_false, Bool.and_true,
      if_true]
    cases hpop : popOutcome env with
    | mk o env1 =>
        cases o with
        | failed e => simp [hpop, targetWriteOps_updateSource, targetWriteOps_nil]
        | ok =>
            have heq1 : dataGetD (addFinalizer s r.Finalizer) "tls.crt" =
                dataGetD t "next-tls.crt" := by
              rw [addFinalizer_dataGetD]; exact heq
            simp [hpop, targetWriteOps_updateSource, targetWriteOps_nil,
              rotateOrInit_skip kid (addFinalizer s r.Finalizer) t env1 heq1]

/-- Witness for the C10 key-only-change behavior at a concrete pair. -/
theorem C10_key_only_change_ignored_witness :
    targetWriteOps (Reconcile prodReconciler kid0 (GetResult.found w10source)
        (GetResult.found w10target) []).2 = [] :=
  C10_key_only_change_ignored prodReconciler kid0 w10source w10target []
    (by decide) rfl (by decide) (by decide)

/-- C8 counterexample: a deleting, finalizer-carrying source whose existing
target no longer carries an owner-reference to it makes the deletion path
fail with an error and persist nothing — the target keeps its deletion
timestamp and the source keeps its finalizer, contradicting the claimed
outcome. -/
theorem C8_counterexample :
    c8target.deletionTimestamp = some 3 ∧
    matchingRefs c8target c8source = [] ∧
    Reconcile prodReconciler kid0 (GetResult.found c8source)
        (GetResult.found c8target) [] = (ReconcileResult.err RError.other, []) :=
  ⟨rfl, rfl, rfl⟩

/-- C8 (amended): for a valid source under deletion whose target exists and
carries exactly one owner-reference entry pointing at the source, the
deletion path persists the detached target (owner-reference removed,
deletion timestamp cleared) strictly before persisting the source with the
finalizer removed; when the finalizer is absent the pass is a no-op. -/
theorem C8_amended_deletion_decoupling (r : SecretReconciler)
    (kid : Bytes → Bytes) (s t : Secret) (env : List WriteOutcome) (ts : Nat)
    (hval : sourceMissingTls s = false)
    (hdel : s.deletionTimestamp = some ts)
    (henv : EnvOk env) :
    (containsFinalizer s r.Finalizer = false →
        Reconcile r kid (GetResult.found s) (GetResult.found t) env =
          (ReconcileResult.ok, [])) ∧
    (containsFinalizer s r.Finalizer = true → (matchingRefs t s).length = 1 →
        ∃ t2, Reconcile r kid (GetResult.found s) (GetResult.found t) env =
            (ReconcileResult.ok,
             [WriteOp.updateTarget t2,
              WriteOp.updateSource (removeFinalizer s r.Finalizer)]) ∧
          t2.deletionTimestamp = none ∧ matchingRefs t2 s = []) := by
  have hred : Reconcile r kid (GetResult.found s) (GetResult.found t) env =
      handleDeletion r s t true env := by
    unfold Reconcile reconcileActive
    simp [hval, hdel]
  constructor
  · intro hf
    rw [hred]
    unfold handleDeletion
    simp [hf]
  · intro hf hone
    have hone' : (t.ownerReferences.filter
        (fun r0 => referSameObject r0 (mkControllerRef s))).length = 1 := hone
    obtain ⟨i, hfi, hfe⟩ := filter_singleton_eraseIdx _ t.ownerReferences hone'
    have hnonnil : t.ownerReferences ≠ [] := by
      intro hh
      rw [matchingRefs, hh] at hone
      simp at hone
    have hrem : removeOwnerReference s t =
        some { t with ownerReferences := t.ownerReferences.eraseIdx i } := by
      unfold removeOwnerReference indexOwnerRef
      rw [if_neg (by simp [Nat.lt_one_iff, List.length_eq_zero, hnonnil]), hfi]
    rw [hred]
    unfold handleDeletion
    rw [if_neg (by simp [hf]), if_pos rfl, hrem]
    simp only [popOutcome_of_envOk henv, popOutcome_of_envOk (envOk_tail henv)]
    exact ⟨_, rfl, rfl, hfe⟩

/-- Witness for the C8 amended theorem at a concrete deleting source and
singly-referenced target. -/
theorem C8_amended_deletion_decoupling_witness :
    ∃ t2, Reconcile prodReconciler kid0 (GetResult.found w8source)
        (GetResult.found w8target) [] =
        (ReconcileResult.ok,
         [WriteOp.updateTarget t2,
          WriteOp.updateSource (removeFinalizer w8source prodReconciler.Finalizer)]) ∧
      t2.deletionTimestamp = none ∧ matchingRefs t2 w8source = [] :=
  (C8_amended_deletion_decoupling prodReconciler kid0 w8source w8target [] 2
      (by decide) rfl (by decide)).2 (by decide) (by decide)

end Rotator
